import Mathlib

set_option maxRecDepth 16384

/-!
Shallow embedding of `src/app.py` (Sistema de Análise de E-commerce).

The Python program keeps an in-memory store (`DataStructure`) holding the
canonical list of sale records (`vendas`) together with derived structures
(`produtos`, `clientes`, `paises`, and two counters), plus CRUD operations
(`EcommerceCRUD`), analytics (`RelatoriosAnalytics`) and a CSV exporter
(`ExportadorCSV`).

Python dynamic values that flow through the store are modelled by `PyVal`:
integers, floats, strings, and `None`.  Floats are the `PFloat` abstraction
of IEEE-754 binary64 as CPython uses it: finite values carry their exact
rational value (no claim depends on the rounding of in-range results),
the specials `inf`, `-inf` and `nan` are explicit, and operations saturate
to the infinities at the exact overflow boundary.  Record fields that the
code only ever assigns through `str(...)` are modelled as `String`; fields
that a CRUD patch can set to an arbitrary dynamic value (`quantity`,
`unit_price`, `description`, `total`) are modelled as `PyVal`.  Python
dicts are modelled as insertion-ordered association lists (assigning to an
existing key keeps its position, a new key is appended), matching CPython
dict semantics.  A Python method returning `True`/`False` is modelled as
returning the new state paired with that boolean, and an exception caught
by the method's own `try` corresponds to the `false` result; for
`adicionar_venda`, whose `except (ValueError, TypeError)` does not cover
`OverflowError`, the outcome type `PyOutcome` distinguishes a raised
exception escaping the method from a returned boolean.
-/

/-- IEEE-754 binary64 as CPython uses it, abstracted: finite values keep
their exact rational value (no claim depends on the rounding of in-range
results), and the specials `inf`, `-inf` and `nan` are explicit. -/
inductive PFloat where
  | finite (q : ℚ)
  | inf (neg : Bool)
  | nan
deriving DecidableEq

/-- Round-to-nearest overflow boundary of binary64: a real magnitude at or
above `2 ^ 1024 - 2 ^ 970` (the midpoint above the largest finite double)
rounds past the finite range; strictly below it, it rounds to a finite
double. -/
def dblBoundN : ℕ := 2 ^ 1024 - 2 ^ 970

/-- The overflow boundary as a rational. -/
def dblBoundQ : ℚ := (dblBoundN : ℚ)

/-- Conversion of an exact real to a double: saturates to the infinities
at the overflow boundary, otherwise keeps the value (finite doubles are
modelled exactly, without rounding). -/
def saturate (q : ℚ) : PFloat :=
  if dblBoundQ ≤ q then .inf false
  else if q ≤ -dblBoundQ then .inf true
  else .finite q

/-- Whether a Python int fits a double: `float(n)` raises `OverflowError`
exactly when the rounded value overflows, i.e. when `|n|` reaches the
boundary. -/
def intFits (n : ℤ) : Bool := n.natAbs < dblBoundN

/-- Negation of a double. -/
def pfNeg : PFloat → PFloat
  | .finite q => .finite (-q)
  | .inf s => .inf (!s)
  | .nan => .nan

/-- IEEE multiplication on the abstracted doubles: `0 * ±inf = nan`,
`nan` propagates, finite products saturate at overflow. -/
def pfMul : PFloat → PFloat → PFloat
  | .nan, _ => .nan
  | _, .nan => .nan
  | .inf s, .inf t => .inf (s != t)
  | .inf s, .finite q =>
    if q = 0 then .nan else .inf (s != decide (q < 0))
  | .finite q, .inf s =>
    if q = 0 then .nan else .inf (s != decide (q < 0))
  | .finite a, .finite b => saturate (a * b)

/-- IEEE addition on the abstracted doubles: `inf + (-inf) = nan`, `nan`
propagates, finite sums saturate at overflow. -/
def pfAdd : PFloat → PFloat → PFloat
  | .nan, _ => .nan
  | _, .nan => .nan
  | .inf s, .inf t => if s == t then .inf s else .nan
  | .inf s, .finite _ => .inf s
  | .finite _, .inf s => .inf s
  | .finite a, .finite b => saturate (a + b)

/-- Python `==` on the abstracted doubles: `nan` is unequal to everything,
itself included. -/
def pfEqB : PFloat → PFloat → Bool
  | .nan, _ => false
  | _, .nan => false
  | .inf s, .inf t => s == t
  | .inf _, .finite _ => false
  | .finite _, .inf _ => false
  | .finite a, .finite b => a == b

/-- Dynamic Python values stored in records and raw ingestion rows. -/
inductive PyVal where
  | vInt (n : ℤ)
  | vFloat (f : PFloat)
  | vStr (s : String)
  | vNone
deriving DecidableEq

/-- Python truthiness for the values of `PyVal` (used by
`if not registro.get('InvoiceNo') ...`); the zero double is falsy, the
specials are truthy. -/
def pyTruthy : PyVal → Bool
  | .vInt n => n != 0
  | .vFloat (.finite q) => q != 0
  | .vFloat _ => true
  | .vStr s => s != ""
  | .vNone => false

/-- Model of Python `str(...)` on a `PyVal`.  Ingestion values are strings,
so only the `vStr` line is ever exercised by the program; the other lines
are a total completion (no claim depends on the rendering of numbers). -/
def pyStr : PyVal → String
  | .vInt n => toString n
  | .vFloat (.finite q) => toString q
  | .vFloat (.inf false) => "inf"
  | .vFloat (.inf true) => "-inf"
  | .vFloat .nan => "nan"
  | .vStr s => s
  | .vNone => "None"

/-- Leading and trailing ASCII whitespace, stripped by CPython `float()`
(the full Unicode whitespace set is outside the modelled fragment). -/
def stripWs (l : List Char) : List Char :=
  ((l.dropWhile (·.isWhitespace)).reverse.dropWhile (·.isWhitespace)).reverse

/-- ASCII lowercasing for the case-insensitive keywords of `float()`. -/
def lowerList (l : List Char) : List Char := l.map Char.toLower

/-- Longest front run of digit/underscore characters, with the rest. -/
def takeDigitRun (l : List Char) : List Char × List Char :=
  l.span (fun c => c.isDigit || c == '_')

/-- Tail of a digit run under PEP 515: an underscore must sit between two
digits.  Returns the digits with underscores removed. -/
def cleanDigitsAux : List Char → Option (List Char)
  | [] => some []
  | '_' :: c :: rest =>
    if c.isDigit then cleanDigitsAux (c :: rest) else none
  | ['_'] => none
  | c :: rest => if c.isDigit then (cleanDigitsAux rest).map (c :: ·) else none

/-- A whole digit run: may be empty, must start with a digit otherwise,
underscores only between digits. -/
def cleanDigits (l : List Char) : Option (List Char) :=
  match l with
  | [] => some []
  | '_' :: _ => none
  | _ => cleanDigitsAux l

/-- Numeric value of a digit list. -/
def digitsVal (l : List Char) : ℕ :=
  l.foldl (fun n c => 10 * n + (c.toNat - 48)) 0

/-- Exponent digits: nonempty, underscore rule, consuming the whole rest. -/
def expDigits (l : List Char) : Option ℤ :=
  match takeDigitRun l with
  | (run, []) =>
    (cleanDigits run).bind fun d =>
      if d.isEmpty then none else some ((digitsVal d : ℤ))
  | _ => none

/-- Optional exponent part: empty input means exponent `0`; otherwise
`e`/`E`, an optional sign and digits. -/
def parseExpPart : List Char → Option ℤ
  | [] => some 0
  | c :: rest =>
    if c == 'e' || c == 'E' then
      match rest with
      | '+' :: r2 => expDigits r2
      | '-' :: r2 => (expDigits r2).map Neg.neg
      | r2 => expDigits r2
    else none

/-- Exact value of `ip . fp × 10 ^ e`, saturated to the double range. -/
def mkFinite (ip fp : List Char) (e : ℤ) : PFloat :=
  saturate (((digitsVal ip : ℚ) + (digitsVal fp : ℚ) / (10 : ℚ) ^ fp.length)
    * (10 : ℚ) ^ e)

/-- Unsigned decimal float literal: digits with an optional fractional
part (at least one digit overall) and an optional exponent. -/
def parseDecimalFloat (l : List Char) : Option PFloat :=
  match takeDigitRun l with
  | (run1, '.' :: rest2) =>
    (cleanDigits run1).bind fun ip =>
    match takeDigitRun rest2 with
    | (run2, rest3) =>
      (cleanDigits run2).bind fun fp =>
      if ip.isEmpty && fp.isEmpty then none
      else (parseExpPart rest3).map (mkFinite ip fp)
  | (run1, rest1) =>
    (cleanDigits run1).bind fun ip =>
    if ip.isEmpty then none
    else (parseExpPart rest1).map (mkFinite ip [])

/-- Unsigned payload of `float(str)`: `inf`/`infinity`/`nan`
(case-insensitive) or a decimal literal. -/
def parseUnsignedFloat (l : List Char) : Option PFloat :=
  if lowerList l == ['i', 'n', 'f'] || lowerList l == "infinity".toList then
    some (.inf false)
  else if lowerList l == ['n', 'a', 'n'] then some .nan
  else parseDecimalFloat l

/-- Model of CPython `float(str)` on its ASCII fragment: optional
whitespace and sign, the keywords `inf`/`infinity`/`nan`, or a decimal
literal with optional fraction, optional exponent and PEP 515 underscores;
magnitudes beyond the double range saturate to the infinities (CPython
returns `inf`, it does not raise, for such strings).  Non-ASCII digits and
Unicode whitespace are outside the modelled fragment.  Finite in-range
values are kept exact. -/
def parsePyFloat (s : String) : Option PFloat :=
  match stripWs s.toList with
  | '+' :: rest => parseUnsignedFloat rest
  | '-' :: rest => (parseUnsignedFloat rest).map pfNeg
  | l => parseUnsignedFloat l

/-- Classification of the exceptions a numeric coercion can raise:
`ValueError` and `TypeError` are caught by `adicionar_venda`'s `except`;
`OverflowError` is not. -/
inductive CoerceErr where
  | caught
  | uncaught
deriving DecidableEq

/-- Observable outcome of a call to `adicionar_venda`: returned `True`,
returned `False`, or raised an exception past its own boundary. -/
inductive PyOutcome where
  | ok
  | fail
  | raised
deriving DecidableEq

/-- Outcome of an exception hitting `except (ValueError, TypeError)`. -/
def outcomeOfErr : CoerceErr → PyOutcome
  | .caught => .fail
  | .uncaught => .raised

/-- Model of CPython `float(x)`: ints convert, raising `OverflowError`
beyond the double range; floats pass through; strings are parsed
(`ValueError` on failure); `None` raises `TypeError`. -/
def pyFloatConv : PyVal → Except CoerceErr PFloat
  | .vInt n => if intFits n then .ok (.finite (n : ℚ)) else .error .uncaught
  | .vFloat f => .ok f
  | .vStr s =>
    match parsePyFloat s with
    | some f => .ok f
    | none => .error .caught
  | .vNone => .error .caught

/-- Truncation toward zero of an exact rational, as CPython `int(x)` on a
finite double: the sign of the numerator times `|num| / den`. -/
def ratTruncInt (q : ℚ) : ℤ := q.num.sign * ((q.num.natAbs / q.den : ℕ) : ℤ)

/-- Model of CPython `int(f)` on a double: finite values truncate toward
zero, `inf` raises `OverflowError` (uncaught), `nan` raises `ValueError`
(caught). -/
def pyIntOfFloat : PFloat → Except CoerceErr ℤ
  | .finite q => .ok (ratTruncInt q)
  | .inf _ => .error .uncaught
  | .nan => .error .caught

/-- String repetition, as in CPython `s * n` (empty for `n ≤ 0`). -/
def strRepeat (s : String) (n : ℤ) : String :=
  String.join (List.replicate n.toNat s)

/-- Whether an int fits CPython's index type (`ssize_t`), as string
repetition requires. -/
def indexFits (n : ℤ) : Bool := decide (-(2 ^ 63) ≤ n) && decide (n < 2 ^ 63)

/-- Model of CPython `x * y` on the values that can reach
`venda['quantity'] * venda['unit_price']`: int times int is exact, a float
operand converts the int operand (`OverflowError` beyond the double
range), string times int repeats (`OverflowError` beyond the index range),
every other combination raises `TypeError`.  Every raised error is mapped
to `none`; at the use sites a blanket `except` catches it. -/
def pyMul : PyVal → PyVal → Option PyVal
  | .vInt a, .vInt b => some (.vInt (a * b))
  | .vInt a, .vFloat f =>
    if intFits a then some (.vFloat (pfMul (.finite (a : ℚ)) f)) else none
  | .vFloat f, .vInt b =>
    if intFits b then some (.vFloat (pfMul f (.finite (b : ℚ)))) else none
  | .vFloat f, .vFloat g => some (.vFloat (pfMul f g))
  | .vStr s, .vInt n => if indexFits n then some (.vStr (strRepeat s n)) else none
  | .vInt n, .vStr s => if indexFits n then some (.vStr (strRepeat s n)) else none
  | _, _ => none

/-- Model of CPython `x + y` on store values (used by the report sums):
ints add exactly, a float operand converts the int operand, strings
concatenate, every other combination raises. -/
def pyAdd : PyVal → PyVal → Option PyVal
  | .vInt a, .vInt b => some (.vInt (a + b))
  | .vInt a, .vFloat f =>
    if intFits a then some (.vFloat (pfAdd (.finite (a : ℚ)) f)) else none
  | .vFloat f, .vInt b =>
    if intFits b then some (.vFloat (pfAdd f (.finite (b : ℚ)))) else none
  | .vFloat f, .vFloat g => some (.vFloat (pfAdd f g))
  | .vStr a, .vStr b => some (.vStr (a ++ b))
  | _, _ => none

/-- Python `==` on store values: int/float comparison is numeric, `nan`
is unequal to everything, different kinds compare unequal. -/
def pyEqB : PyVal → PyVal → Bool
  | .vInt a, .vInt b => a == b
  | .vInt a, .vFloat (.finite q) => (a : ℚ) == q
  | .vFloat (.finite q), .vInt a => q == (a : ℚ)
  | .vInt _, .vFloat _ => false
  | .vFloat _, .vInt _ => false
  | .vFloat f, .vFloat g => pfEqB f g
  | .vStr a, .vStr b => a == b
  | .vNone, .vNone => true
  | _, _ => false

/-- A store value that is not the float `nan`. -/
def notNanB : PyVal → Bool
  | .vFloat .nan => false
  | _ => true

/-- A Python number that a float operand can absorb without raising: an
int within the double range, or any float. -/
def numFitsB : PyVal → Bool
  | .vInt n => intFits n
  | .vFloat _ => true
  | _ => false

/-- Lookup in an insertion-ordered association list (Python `d[k]` /
`d.get(k)`). -/
def alGet {α : Type} (l : List (String × α)) (k : String) : Option α :=
  (l.find? (fun p => p.1 == k)).map (fun p => p.2)

/-- Assignment in an insertion-ordered association list: an existing key
keeps its position, a new key is appended (CPython dict semantics). -/
def alSet {α : Type} : List (String × α) → String → α → List (String × α)
  | [], k, v => [(k, v)]
  | (k0, v0) :: rest, k, v =>
    if k0 == k then (k, v) :: rest else (k0, v0) :: alSet rest k v

/-- Raw ingestion row / CRUD patch: a Python mapping from field names to
dynamic values. -/
def Registro : Type := List (String × PyVal)

/-- Model of `registro.get(key, default)`. -/
def rget (r : Registro) (k : String) (dflt : PyVal) : PyVal :=
  (alGet r k).getD dflt

/-- Combined coercion of the `Quantity` field, `int(float(...))`, with the
per-exception classification (the inner `float` may raise first). -/
def coerceQty (r : Registro) : Except CoerceErr ℤ :=
  (pyFloatConv (rget r "Quantity" (.vInt 0))).bind pyIntOfFloat

/-- Coercion of the `UnitPrice` field, `float(...)`. -/
def coercePrice (r : Registro) : Except CoerceErr PFloat :=
  pyFloatConv (rget r "UnitPrice" (.vInt 0))

/-- One sale record (`venda` dict built by `DataStructure.adicionar_venda`).
Fields the code only assigns via `str(...)` are `String`; fields reachable
by CRUD patches keep the dynamic `PyVal` type. -/
structure Venda where
  invoice_no : String
  stock_code : String
  description : PyVal
  quantity : PyVal
  invoice_date : String
  unit_price : PyVal
  customer_id : String
  country : String
  total : PyVal
deriving DecidableEq

/-- Per-product aggregate (`self.produtos[stock_code]`).  These entries are
written only by ingestion, where the arithmetic fields are already coerced
numbers, so the counters carry exact integer types and the accumulated
revenue is a double. -/
structure Produto where
  description : PyVal
  vendas_total : ℕ
  quantidade_total : ℤ
  receita_total : PFloat
deriving DecidableEq

/-- Per-customer aggregate (`self.clientes[customer_id]`). -/
structure Cliente where
  pais : String
  compras_total : ℕ
  quantidade_total : ℤ
  gasto_total : PFloat
deriving DecidableEq

/-- The store: canonical record list plus the derived structures owned by
the Python `DataStructure` object. -/
structure DataStructure where
  vendas : List Venda
  produtos : List (String × Produto)
  clientes : List (String × Cliente)
  paises : List (String × List String)
  contador_vendas_pais : List (String × ℕ)
  contador_produtos : List (String × ℤ)
deriving DecidableEq

/-- The store as built by `DataStructure.__init__`: everything empty. -/
def dsEmpty : DataStructure :=
  { vendas := [], produtos := [], clientes := [], paises := []
    contador_vendas_pais := [], contador_produtos := [] }

/-- Model of `DataStructure._atualizar_produto`.  It is called only from
`adicionar_venda`, immediately after the record is built, so the quantity
and total of the new record are the already-coerced number `q` and
`t = q * unit_price`; they are passed here in exact form. -/
def atualizar_produto (s : DataStructure) (venda : Venda) (q : ℤ) (t : PFloat) :
    DataStructure :=
  let p0 := (alGet s.produtos venda.stock_code).getD
    { description := venda.description, vendas_total := 0
      quantidade_total := 0, receita_total := .finite 0 }
  let p1 : Produto :=
    { p0 with vendas_total := p0.vendas_total + 1
              quantidade_total := p0.quantidade_total + q
              receita_total := pfAdd p0.receita_total t }
  { s with produtos := alSet s.produtos venda.stock_code p1
           contador_produtos := alSet s.contador_produtos venda.stock_code
             ((alGet s.contador_produtos venda.stock_code).getD 0 + q) }

/-- Model of `DataStructure._atualizar_cliente` (skips empty customer
ids). -/
def atualizar_cliente (s : DataStructure) (venda : Venda) (q : ℤ) (t : PFloat) :
    DataStructure :=
  if venda.customer_id != "" then
    let c0 := (alGet s.clientes venda.customer_id).getD
      { pais := venda.country, compras_total := 0
        quantidade_total := 0, gasto_total := .finite 0 }
    let c1 : Cliente :=
      { c0 with compras_total := c0.compras_total + 1
                quantidade_total := c0.quantidade_total + q
                gasto_total := pfAdd c0.gasto_total t }
    { s with clientes := alSet s.clientes venda.customer_id c1 }
  else s

/-- Model of `DataStructure._atualizar_pais` (skips empty countries). -/
def atualizar_pais (s : DataStructure) (venda : Venda) : DataStructure :=
  if venda.country != "" then
    { s with paises := alSet s.paises venda.country
               (((alGet s.paises venda.country).getD []) ++ [venda.invoice_no])
             contador_vendas_pais := alSet s.contador_vendas_pais venda.country
               ((alGet s.contador_vendas_pais venda.country).getD 0 + 1) }
  else s

/-- Model of `DataStructure.adicionar_venda`.  Validation and the numeric
coercions run, in source order, before any structure is touched: the
required-id check, then `int(float(Quantity))`, then `float(UnitPrice)`,
then — inside the computation of `total` — the int-to-float conversion of
the coerced quantity.  A `ValueError`/`TypeError` on this path is caught
by the method's `except` and returns `False` (`.fail`); an `OverflowError`
(quantity coercing to `±inf`, or an int beyond the double range) escapes
the method (`.raised`).  Either way the store is untouched.  On success
the record is appended to `vendas` with `total = quantity * unitPrice`
and the three derived-structure updates run. -/
def adicionar_venda (s : DataStructure) (registro : Registro) :
    DataStructure × PyOutcome :=
  if !(pyTruthy (rget registro "InvoiceNo" .vNone))
      || !(pyTruthy (rget registro "StockCode" .vNone)) then
    (s, .fail)
  else
    match coerceQty registro with
    | .error e => (s, outcomeOfErr e)
    | .ok q =>
      match coercePrice registro with
      | .error e => (s, outcomeOfErr e)
      | .ok pf =>
        if intFits q then
          let venda : Venda :=
            { invoice_no := pyStr (rget registro "InvoiceNo" .vNone)
              stock_code := pyStr (rget registro "StockCode" .vNone)
              description := .vStr (pyStr (rget registro "Description" (.vStr "")))
              quantity := .vInt q
              invoice_date := pyStr (rget registro "InvoiceDate" (.vStr ""))
              unit_price := .vFloat pf
              customer_id := pyStr (rget registro "CustomerID" (.vStr ""))
              country := pyStr (rget registro "Country" (.vStr ""))
              total := .vFloat (pfMul (.finite (q : ℚ)) pf) }
          let s1 := { s with vendas := s.vendas ++ [venda] }
          let s2 := atualizar_produto s1 venda q (pfMul (.finite (q : ℚ)) pf)
          let s3 := atualizar_cliente s2 venda q (pfMul (.finite (q : ℚ)) pf)
          let s4 := atualizar_pais s3 venda
          (s4, .ok)
        else (s, .raised)

/-- Model of `EcommerceCRUD.criar_venda`: delegates to `adicionar_venda`,
and its blanket `except Exception` turns even an exception that escaped
`adicionar_venda` into the `False` result. -/
def criar_venda (s : DataStructure) (dados_venda : Registro) :
    DataStructure × Bool :=
  match adicionar_venda s dados_venda with
  | (s2, .ok) => (s2, true)
  | (s2, .fail) => (s2, false)
  | (s2, .raised) => (s2, false)

/-- Model of `EcommerceCRUD.buscar_venda_por_invoice`: linear scan, first
match in document order. -/
def buscar_venda_por_invoice (s : DataStructure) (invoice_no : String) :
    Option Venda :=
  s.vendas.find? (fun v => v.invoice_no == invoice_no)

/-- The in-place field assignments of `atualizar_venda`: the allowed keys
`quantity`, `unit_price`, `description` are copied from the patch in that
order; every other key of the patch is ignored. -/
def applyPatch (v : Venda) (novos : Registro) : Venda :=
  let v1 := match alGet novos "quantity" with
    | some x => { v with quantity := x }
    | none => v
  let v2 := match alGet novos "unit_price" with
    | some x => { v1 with unit_price := x }
    | none => v1
  match alGet novos "description" with
  | some x => { v2 with description := x }
  | none => v2

/-- Body of the `for i, venda in enumerate(...)` loop of
`EcommerceCRUD.atualizar_venda`.  On the first matching record the patch
fields are assigned in place; then `total` is recomputed.  When that
multiplication raises `TypeError` the surrounding `except` returns `false`,
but the record has already been mutated: the patch fields stay applied and
`total` keeps its old value. -/
def atualizarLoop (novos : Registro) (invoice_no : String) :
    List Venda → List Venda × Bool
  | [] => ([], false)
  | v :: rest =>
    if v.invoice_no == invoice_no then
      let v1 := applyPatch v novos
      match pyMul v1.quantity v1.unit_price with
      | some t => (({ v1 with total := t }) :: rest, true)
      | none => (v1 :: rest, false)
    else
      let r := atualizarLoop novos invoice_no rest
      (v :: r.1, r.2)

/-- Model of `EcommerceCRUD.atualizar_venda`. -/
def atualizar_venda (s : DataStructure) (invoice_no : String)
    (novos : Registro) : DataStructure × Bool :=
  let r := atualizarLoop novos invoice_no s.vendas
  ({ s with vendas := r.1 }, r.2)

/-- Body of the deletion loop of `EcommerceCRUD.deletar_venda`: remove the
first record whose `invoice_no` matches. -/
def deletarLoop (invoice_no : String) : List Venda → List Venda × Bool
  | [] => ([], false)
  | v :: rest =>
    if v.invoice_no == invoice_no then (rest, true)
    else
      let r := deletarLoop invoice_no rest
      (v :: r.1, r.2)

/-- Model of `EcommerceCRUD.deletar_venda`. -/
def deletar_venda (s : DataStructure) (invoice_no : String) :
    DataStructure × Bool :=
  let r := deletarLoop invoice_no s.vendas
  ({ s with vendas := r.1 }, r.2)

/-- Python `sum(...)` over dynamic values, starting from the int `0`; the
first `TypeError` aborts the whole sum (modelled as `none`). -/
def sumPy (l : List PyVal) : Option PyVal :=
  l.foldl (fun acc v => acc.bind fun a => pyAdd a v) (some (.vInt 0))

/-- Model of Python `x / n` as the averages use it (`n` is the record
count, positive at every call site): an int numerator divides with exact
result, raising `OverflowError` (`none`) when the quotient leaves the
double range; a float numerator divides through, the specials
propagating. -/
def pyDivNat (a : PyVal) (n : ℕ) : Option PFloat :=
  match a with
  | .vInt m =>
    if dblBoundQ ≤ |(m : ℚ) / (n : ℚ)| then none
    else some (.finite ((m : ℚ) / (n : ℚ)))
  | .vFloat (.finite q) => some (.finite (q / (n : ℚ)))
  | .vFloat (.inf s) => some (.inf s)
  | .vFloat .nan => some .nan
  | _ => none

/-- Result dict of `RelatoriosAnalytics.calcular_medias`: the three
averages are float divisions, `receita_total` is the raw sum, and
`total_vendas` the record count. -/
structure Medias where
  receita_media_por_venda : PFloat
  quantidade_media_por_venda : PFloat
  preco_medio_unitario : PFloat
  receita_total : PyVal
  total_vendas : ℕ
deriving DecidableEq

/-- Model of `RelatoriosAnalytics.calcular_medias`.  An empty `vendas`
list returns the empty dict (`none`) before any division; an exception
inside one of the sums or divisions is caught by the method's blanket
`except` and also yields the empty dict. -/
def calcular_medias (s : DataStructure) : Option Medias :=
  if s.vendas.isEmpty then none
  else
    match sumPy (s.vendas.map (fun v => v.total)),
          sumPy (s.vendas.map (fun v => v.quantity)),
          sumPy (s.vendas.map (fun v => v.unit_price)) with
    | some sv, some sq, some sp =>
      match pyDivNat sv s.vendas.length, pyDivNat sq s.vendas.length,
            pyDivNat sp s.vendas.length with
      | some rm, some qm, some pm =>
        some { receita_media_por_venda := rm
               quantidade_media_por_venda := qm
               preco_medio_unitario := pm
               receita_total := sv
               total_vendas := s.vendas.length }
      | _, _, _ => none
    | _, _, _ => none

/-- Insertion step of a stable descending sort on `quantidade_total`: the
new element (which precedes the list elements in the original order) moves
right only past strictly larger keys, so equal keys keep insertion order. -/
def rankInsert (x : String × Produto) :
    List (String × Produto) → List (String × Produto)
  | [] => [x]
  | y :: rest =>
    if x.2.quantidade_total < y.2.quantidade_total then y :: rankInsert x rest
    else x :: y :: rest

/-- Stable descending sort on `quantidade_total`.  Extensionally equal to
CPython `sorted(items, key=lambda x: x[1], reverse=True)`: both produce
the unique reordering that is non-increasing on the key and keeps elements
with equal keys in their original relative order. -/
def rankSort : List (String × Produto) → List (String × Produto)
  | [] => []
  | x :: xs => rankInsert x (rankSort xs)

/-- Model of `RelatoriosAnalytics.ranking_produtos_mais_vendidos`: sort all
product aggregates descending by `quantidade_total` (stably, dict order =
insertion order of first appearance) and truncate to `top_n`. -/
def ranking_produtos_mais_vendidos (s : DataStructure) (top_n : ℕ) :
    List (String × Produto) :=
  (rankSort s.produtos).take top_n

/-- Observable outcome of `ExportadorCSV.exportar_vendas`.  `file_created`
records that `open(nome_arquivo, 'w')` ran, which creates the file (or
truncates an existing one) on the operating system; `header`/`rows` are
what `DictWriter` wrote into it. -/
structure ExportResult where
  file_created : Bool
  header : Option (List String)
  rows : List (List String)
  success : Bool
deriving DecidableEq

/-- Key order of the `venda` dict literal, used by the exporter for the
header (`self.data.vendas[0].keys()`). -/
def vendaFields : List String :=
  ["invoice_no", "stock_code", "description", "quantity", "invoice_date",
   "unit_price", "customer_id", "country", "total"]

/-- One CSV row for a record (`DictWriter` stringifies each value). -/
def vendaRow (v : Venda) : List String :=
  [v.invoice_no, v.stock_code, pyStr v.description, pyStr v.quantity,
   v.invoice_date, pyStr v.unit_price, v.customer_id, v.country,
   pyStr v.total]

/-- Model of `ExportadorCSV.exportar_vendas`.  The `with open(...)` line
runs first, so the output file is created (truncated) before the emptiness
check; on an empty store the method then returns `False` having written no
header and no rows. -/
def exportar_vendas (s : DataStructure) : ExportResult :=
  if s.vendas.isEmpty then
    { file_created := true, header := none, rows := [], success := false }
  else
    { file_created := true, header := some vendaFields
      rows := s.vendas.map vendaRow, success := true }

/-- One mutating operation against the store, as dispatched by the CRUD
layer (`criar_venda` delegates to `adicionar_venda`). -/
inductive Op where
  | add (registro : Registro)
  | update (invoice_no : String) (novos : Registro)
  | delete (invoice_no : String)

/-- Run one operation, keeping the resulting state. -/
def applyOp (s : DataStructure) : Op → DataStructure
  | .add r => (adicionar_venda s r).1
  | .update inv novos => (atualizar_venda s inv novos).1
  | .delete inv => (deletar_venda s inv).1

/-- Run a sequence of mutating operations from a starting state. -/
def runOps (s : DataStructure) (ops : List Op) : DataStructure :=
  ops.foldl applyOp s

/-- Derived-total invariant for one record: `quantity` and `unit_price`
are Python numbers a float operation can absorb without raising, and
`total` is exactly the Python value produced by recomputing their product
with the ingestion multiplication. -/
def isTotalOk (v : Venda) : Bool :=
  numFitsB v.quantity && numFitsB v.unit_price
    && (pyMul v.quantity v.unit_price == some v.total)

/-- Python-equality reading of the claimed invariant: recomputing
`quantity * unitPrice` succeeds and the result compares `==` to the
stored total.  A `nan` total fails this, since `nan != nan`. -/
def totalEqPy (v : Venda) : Bool :=
  match pyMul v.quantity v.unit_price with
  | some t => pyEqB v.total t
  | none => false

/-- A patch is benign when whatever it binds to `quantity` or
`unit_price` is a Python number within the double range — ints beyond it
make the total recompute raise `OverflowError`.  The program's own update
UI coerces with `int(...)`/`float(...)` before patching, so its patches
are numeric, though a user may still type an out-of-range integer. -/
def goodPatchB (novos : Registro) : Bool :=
  (match alGet novos "quantity" with
   | some x => numFitsB x
   | none => true)
  && (match alGet novos "unit_price" with
      | some x => numFitsB x
      | none => true)

/-- An operation is benign when every value it patches into `quantity` or
`unit_price` is a number within the double range. -/
def goodOpB : Op → Bool
  | .update _ novos => goodPatchB novos
  | _ => true

/-! Concrete fixtures used by witnesses and counterexamples. -/

/-- Raw row with valid ids and numeric fields (invoice `1`, product `A`). -/
def rowA : Registro :=
  [("InvoiceNo", .vStr "1"), ("StockCode", .vStr "A"),
   ("Quantity", .vInt 2), ("UnitPrice", .vFloat (.finite 3))]

/-- Raw row with valid ids and numeric fields (invoice `1`, product `B`). -/
def rowA2 : Registro :=
  [("InvoiceNo", .vStr "1"), ("StockCode", .vStr "B"),
   ("Quantity", .vInt 5), ("UnitPrice", .vFloat (.finite 2))]

/-- Store holding the single row `rowA`. -/
def sA : DataStructure := (adicionar_venda dsEmpty rowA).1

/-- Store holding `rowA` then `rowA2`: two records, two products, one
shared invoice id. -/
def sAA : DataStructure := (adicionar_venda sA rowA2).1

/-- A record literal with invoice `1`, product `A`. -/
def vLit1 : Venda :=
  { invoice_no := "1", stock_code := "A", description := .vStr ""
    quantity := .vInt 2, invoice_date := "", unit_price := .vFloat (.finite 3)
    customer_id := "", country := "", total := .vFloat (.finite 6) }

/-- A second record literal with the same invoice id `1`, product `B`. -/
def vLit2 : Venda :=
  { invoice_no := "1", stock_code := "B", description := .vStr ""
    quantity := .vInt 5, invoice_date := "", unit_price := .vFloat (.finite 2)
    customer_id := "", country := "", total := .vFloat (.finite 10) }

/-- Store whose canonical sequence holds two records sharing invoice `1`. -/
def sTwo : DataStructure := { dsEmpty with vendas := [vLit1, vLit2] }

/-- Store with exactly one record, invoice `1`. -/
def sOne : DataStructure := { dsEmpty with vendas := [vLit1] }

/-- Patch binding `quantity` to the non-numeric string `x`. -/
def badPatch : Registro := [("quantity", .vStr "x")]

/-- Patch binding `quantity` to the number `7`. -/
def patch7 : Registro := [("quantity", .vInt 7)]

/-- Row whose `StockCode` is present but empty. -/
def rowNoStock : Registro :=
  [("InvoiceNo", .vStr "9"), ("StockCode", .vStr "")]

/-- Row with valid ids whose `Quantity` cannot be coerced to a number. -/
def rowBadQty : Registro :=
  [("InvoiceNo", .vStr "9"), ("StockCode", .vStr "A"), ("Quantity", .vNone)]

/-- Row with valid ids whose `Quantity` is the string `inf`: `float`
accepts it and the following `int` raises `OverflowError`. -/
def rowInfQty : Registro :=
  [("InvoiceNo", .vStr "9"), ("StockCode", .vStr "A"),
   ("Quantity", .vStr "inf")]

/-- Row with valid ids, quantity `0` and `UnitPrice` the string `inf`:
accepted, and the stored total is `0 * inf = nan`. -/
def rowInfPrice : Registro :=
  [("InvoiceNo", .vStr "1"), ("StockCode", .vStr "A"),
   ("Quantity", .vInt 0), ("UnitPrice", .vStr "inf")]

/-- Recomputed total of the first fixture record under the numeric patch
`patch7`, read back from the model's own multiplication. -/
def tPatch7 : PyVal :=
  (pyMul (applyPatch vLit1 patch7).quantity (applyPatch vLit1 patch7).unit_price).getD PyVal.vNone

/-- Invariant: every live record has a numeric quantity and unit price
whose product is exactly its stored total. -/
def vendasOk (s : DataStructure) : Prop :=
  ∀ v ∈ s.vendas, isTotalOk v = true

/-- Sequence whose update patch is non-numeric: it breaks the invariant. -/
def opsBad : List Op := [Op.add rowA, Op.update "1" badPatch]

/-- Sequence of benign operations: add, numeric update, delete, add. -/
def opsGood : List Op :=
  [Op.add rowA, Op.update "1" patch7, Op.add rowA2, Op.delete "1"]

/-- Sort key used by the product ranking. -/
def prodKey (x : String × Produto) : ℤ := x.2.quantidade_total

/-! Claims C2, C9, C5, C7, C8. -/

/-- C2: an input mapping whose `InvoiceNo` or `StockCode` is missing or
empty makes `addRecord` fail with the validation-error result (returned
`False`) and leaves the canonical sequence, both aggregates, the country
index and both counters exactly as they were. -/
theorem c2_add_missing_id_rejected (s : DataStructure) (r : Registro)
    (h : (alGet r "InvoiceNo" = none ∨ alGet r "InvoiceNo" = some (PyVal.vStr ""))
       ∨ (alGet r "StockCode" = none ∨ alGet r "StockCode" = some (PyVal.vStr ""))) :
    (adicionar_venda s r).2 = PyOutcome.fail
    ∧ (adicionar_venda s r).1.vendas = s.vendas
    ∧ (adicionar_venda s r).1.produtos = s.produtos
    ∧ (adicionar_venda s r).1.clientes = s.clientes
    ∧ (adicionar_venda s r).1.paises = s.paises
    ∧ (adicionar_venda s r).1.contador_vendas_pais = s.contador_vendas_pais
    ∧ (adicionar_venda s r).1.contador_produtos = s.contador_produtos := by
  have hcond : (!(pyTruthy (rget r "InvoiceNo" .vNone))
      || !(pyTruthy (rget r "StockCode" .vNone))) = true := by
    rcases h with (h | h) | (h | h) <;> simp [rget, h, pyTruthy]
  simp [adicionar_venda, hcond]

/-- C2 witness: rejecting a row with empty `StockCode` on a two-record
store changes nothing. -/
theorem c2_witness :
    (adicionar_venda sTwo rowNoStock).2 = PyOutcome.fail
    ∧ (adicionar_venda sTwo rowNoStock).1.vendas = sTwo.vendas
    ∧ (adicionar_venda sTwo rowNoStock).1.produtos = sTwo.produtos
    ∧ (adicionar_venda sTwo rowNoStock).1.clientes = sTwo.clientes
    ∧ (adicionar_venda sTwo rowNoStock).1.paises = sTwo.paises
    ∧ (adicionar_venda sTwo rowNoStock).1.contador_vendas_pais = sTwo.contador_vendas_pais
    ∧ (adicionar_venda sTwo rowNoStock).1.contador_produtos = sTwo.contador_produtos :=
  c2_add_missing_id_rejected sTwo rowNoStock (Or.inr (Or.inr rfl))

/-- C9: evaluation of the failing input.  A row with valid ids whose
`Quantity` is the string `inf` is accepted by `float()` but makes
`int(float('inf'))` raise `OverflowError`, which
`except (ValueError, TypeError)` does not catch: `adicionar_venda` raises
past its own boundary instead of returning the failure result the claim
(and the method's own docstring) promise.  The store is left untouched,
and the CRUD wrapper `criar_venda`, whose `except Exception` does catch
it, is what turns it into a `False` result. -/
theorem c9_overflow_escape :
    (adicionar_venda dsEmpty rowInfQty).2 = PyOutcome.raised
    ∧ (adicionar_venda dsEmpty rowInfQty).1 = dsEmpty
    ∧ criar_venda dsEmpty rowInfQty = (dsEmpty, false)
    ∧ (adicionar_venda dsEmpty rowBadQty).2 = PyOutcome.fail := by
  decide

/-- C5: `updateRecord` and `deleteRecord` never modify the product
aggregates, the customer aggregates, the country index or either counter:
after any update or delete those structures are exactly as accumulated at
insertion time. -/
theorem c5_update_delete_preserve_aggregates (s : DataStructure)
    (invoice_no : String) (novos : Registro) :
    ((atualizar_venda s invoice_no novos).1.produtos = s.produtos
     ∧ (atualizar_venda s invoice_no novos).1.clientes = s.clientes
     ∧ (atualizar_venda s invoice_no novos).1.paises = s.paises
     ∧ (atualizar_venda s invoice_no novos).1.contador_vendas_pais = s.contador_vendas_pais
     ∧ (atualizar_venda s invoice_no novos).1.contador_produtos = s.contador_produtos)
    ∧ ((deletar_venda s invoice_no).1.produtos = s.produtos
     ∧ (deletar_venda s invoice_no).1.clientes = s.clientes
     ∧ (deletar_venda s invoice_no).1.paises = s.paises
     ∧ (deletar_venda s invoice_no).1.contador_vendas_pais = s.contador_vendas_pais
     ∧ (deletar_venda s invoice_no).1.contador_produtos = s.contador_produtos) :=
  ⟨⟨rfl, rfl, rfl, rfl, rfl⟩, ⟨rfl, rfl, rfl, rfl, rfl⟩⟩

/-- C7: `computeAverages` returns the empty result on an empty store, and
whenever it actually returns metrics the record count used as divisor is
positive (so the division-by-zero branch is unreachable). -/
theorem c7_calcular_medias_guard (s : DataStructure) :
    (s.vendas = [] → calcular_medias s = none)
    ∧ (∀ m, calcular_medias s = some m →
        0 < s.vendas.length ∧ m.total_vendas = s.vendas.length) := by
  constructor
  · intro h
    simp [calcular_medias, h]
  · intro m hm
    unfold calcular_medias at hm
    split at hm
    · exact absurd hm (by simp)
    · next hne =>
      have hlen : 0 < s.vendas.length := by
        rcases hv : s.vendas with _ | ⟨a, l⟩
        · rw [hv] at hne; simp at hne
        · simp [hv]
      split at hm
      · next sv sq sp hsv hsq hsp =>
        split at hm
        · next rm qm pm hrm hqm hpm =>
          cases hm
          exact ⟨hlen, rfl⟩
        · exact absurd hm (by simp)
      · exact absurd hm (by simp)

/-- C7 witness: the empty store yields the empty result. -/
theorem c7_witness : calcular_medias dsEmpty = none :=
  (c7_calcular_medias_guard dsEmpty).1 rfl

/-- C8 counterexample: on the empty store the exporter does report failure,
but the claim that it writes no file is false — `open(nome_arquivo, 'w')`
runs before the emptiness check and creates (or truncates) the file. -/
theorem c8_counterexample :
    ¬ ((exportar_vendas dsEmpty).success = false
       ∧ (exportar_vendas dsEmpty).file_created = false) := by
  decide

/-- C8 amended: exporting with an empty canonical sequence reports failure
and writes no header and no rows, but the output file has already been
opened (created/truncated) by the `with open` line. -/
theorem c8_export_empty_reports_failure (s : DataStructure)
    (h : s.vendas = []) :
    (exportar_vendas s).success = false
    ∧ (exportar_vendas s).header = none
    ∧ (exportar_vendas s).rows = []
    ∧ (exportar_vendas s).file_created = true := by
  simp [exportar_vendas, h]

/-- C8 witness: the amended behavior on the freshly constructed store. -/
theorem c8_witness :
    (exportar_vendas dsEmpty).success = false
    ∧ (exportar_vendas dsEmpty).header = none
    ∧ (exportar_vendas dsEmpty).rows = []
    ∧ (exportar_vendas dsEmpty).file_created = true :=
  c8_export_empty_reports_failure dsEmpty rfl

/-! Lemmas on the deletion loop, and claims C3, C4. -/

/-- When the deletion loop reports failure it returns the list unchanged. -/
theorem deletarLoop_not_found (inv : String) :
    ∀ l : List Venda, (deletarLoop inv l).2 = false → (deletarLoop inv l).1 = l := by
  intro l
  induction l with
  | nil => intro _; rfl
  | cons v rest ih =>
    intro h
    cases hv : v.invoice_no == inv with
    | true => simp [deletarLoop, hv] at h
    | false =>
      simp only [deletarLoop, hv] at h ⊢
      simp only [Bool.false_eq_true, if_false] at h ⊢
      simpa using ih h

/-- When every element misses, the deletion loop is a no-op failure. -/
theorem deletarLoop_all_missing (inv : String) :
    ∀ l : List Venda, (∀ v ∈ l, (v.invoice_no == inv) = false) →
      deletarLoop inv l = (l, false) := by
  intro l
  induction l with
  | nil => intro _; rfl
  | cons v rest ih =>
    intro h
    have hv := h v (by simp)
    simp only [deletarLoop, hv, Bool.false_eq_true, if_false]
    rw [ih (fun u hu => h u (by simp [hu]))]

/-- A successful deletion shortens the list by exactly one element. -/
theorem deletarLoop_found_length (inv : String) :
    ∀ l : List Venda, (deletarLoop inv l).2 = true →
      (deletarLoop inv l).1.length + 1 = l.length := by
  intro l
  induction l with
  | nil => intro h; simp [deletarLoop] at h
  | cons v rest ih =>
    intro h
    cases hv : v.invoice_no == inv with
    | true => simp [deletarLoop, hv]
    | false =>
      simp only [deletarLoop, hv, Bool.false_eq_true, if_false] at h ⊢
      simp only [List.length_cons]
      rw [← ih (by simpa using h)]

/-- If at most one element matched, a successful deletion leaves no
matching element behind. -/
theorem deletarLoop_found_filter (inv : String) :
    ∀ l : List Venda, (deletarLoop inv l).2 = true →
      (l.filter (fun v => v.invoice_no == inv)).length ≤ 1 →
      (deletarLoop inv l).1.filter (fun v => v.invoice_no == inv) = [] := by
  intro l
  induction l with
  | nil => intro h _; simp [deletarLoop] at h
  | cons v rest ih =>
    intro h hle
    cases hv : v.invoice_no == inv with
    | true =>
      simp only [deletarLoop, hv, if_true]
      rw [List.filter_cons, if_pos (by simp [hv])] at hle
      simp only [List.length_cons] at hle
      exact List.eq_nil_of_length_eq_zero (by omega)
    | false =>
      simp only [deletarLoop, hv, Bool.false_eq_true, if_false] at h ⊢
      rw [List.filter_cons, if_neg (by simp [hv])] at hle
      rw [List.filter_cons, if_neg (by simp [hv])]
      exact ih (by simpa using h) hle

/-- Elements surviving a deletion were already in the list. -/
theorem deletarLoop_subset (inv : String) :
    ∀ l : List Venda, ∀ v ∈ (deletarLoop inv l).1, v ∈ l := by
  intro l
  induction l with
  | nil => intro v hv; simp [deletarLoop] at hv
  | cons u rest ih =>
    intro v hv
    cases hu : u.invoice_no == inv with
    | true =>
      simp only [deletarLoop, hu, if_true] at hv
      exact List.mem_cons_of_mem u hv
    | false =>
      simp only [deletarLoop, hu, Bool.false_eq_true, if_false] at hv
      rcases List.mem_cons.mp hv with h | h
      · exact h ▸ List.mem_cons_self u rest
      · exact List.mem_cons_of_mem u (ih v h)

/-- The update loop is a no-op failure when no record matches. -/
theorem atualizarLoop_no_match (inv : String) (novos : Registro) :
    ∀ l : List Venda, (∀ v ∈ l, ¬ v.invoice_no = inv) →
      atualizarLoop novos inv l = (l, false) := by
  intro l
  induction l with
  | nil => intro _; rfl
  | cons v rest ih =>
    intro h
    have hv : (v.invoice_no == inv) = false := by
      simpa using h v (by simp)
    simp only [atualizarLoop, hv, Bool.false_eq_true, if_false]
    rw [ih (fun u hu => h u (by simp [hu]))]

/-- Any outcome of `adicionar_venda` other than success — the caught
validation/coercion failures as well as the escaped `OverflowError` —
leaves the store untouched: every exception fires before the append. -/
theorem adicionar_venda_not_ok_unchanged (s : DataStructure) (r : Registro)
    (h : (adicionar_venda s r).2 ≠ PyOutcome.ok) :
    (adicionar_venda s r).1 = s := by
  by_cases hc : (!(pyTruthy (rget r "InvoiceNo" .vNone))
      || !(pyTruthy (rget r "StockCode" .vNone))) = true
  · simp [adicionar_venda, hc]
  · unfold adicionar_venda at h ⊢
    rw [if_neg (by simpa using hc)] at h ⊢
    cases hq : coerceQty r with
    | error e => simp
    | ok q =>
      rw [hq] at h
      cases hp : coercePrice r with
      | error e => simp
      | ok pf =>
        rw [hp] at h
        dsimp only at h ⊢
        by_cases hfit : intFits q = true
        · rw [if_pos hfit] at h
          exact absurd rfl h
        · rw [if_neg hfit]

/-- C3 counterexample: a single failing `updateRecord` call that is not
all-or-nothing.  Patching `quantity` with the non-numeric string `x` makes
the total recomputation raise `TypeError`, so the operation reports
failure, yet the record's `quantity` has already been overwritten. -/
theorem c3_counterexample :
    (atualizar_venda sA "1" badPatch).2 = false
    ∧ ¬ (atualizar_venda sA "1" badPatch).1.vendas.map Venda.quantity
        = sA.vendas.map Venda.quantity := by
  decide

/-- C3 amended: `addRecord` failures leave the whole store unchanged —
both the caught validation/coercion failures and the exception that
escapes the method — `deleteRecord` failures leave it unchanged, and
`updateRecord` leaves it unchanged when no record matches; but an
`updateRecord` failure caused by the total recomputation raising inside
the loop is excluded: there the patched fields stay applied (see the
counterexample). -/
theorem c3_fail_all_or_nothing :
    (∀ (s : DataStructure) (r : Registro),
      (adicionar_venda s r).2 = PyOutcome.fail → (adicionar_venda s r).1 = s)
    ∧ (∀ (s : DataStructure) (r : Registro),
      (adicionar_venda s r).2 = PyOutcome.raised → (adicionar_venda s r).1 = s)
    ∧ (∀ (s : DataStructure) (inv : String),
      (deletar_venda s inv).2 = false → (deletar_venda s inv).1 = s)
    ∧ (∀ (s : DataStructure) (inv : String) (novos : Registro),
      (∀ v ∈ s.vendas, ¬ v.invoice_no = inv) →
      atualizar_venda s inv novos = (s, false)) := by
  refine ⟨?_, ?_, ?_, ?_⟩
  · intro s r h
    exact adicionar_venda_not_ok_unchanged s r (by rw [h]; simp)
  · intro s r h
    exact adicionar_venda_not_ok_unchanged s r (by rw [h]; simp)
  · intro s inv h
    have := deletarLoop_not_found inv s.vendas h
    unfold deletar_venda
    simp [this]
  · intro s inv novos h
    unfold atualizar_venda
    rw [atualizarLoop_no_match inv novos s.vendas h]

/-- C3 witness: a failing add (missing ids), a caught coercion failure, an
escaped overflow, a failing delete and a no-match update all leave their
stores untouched. -/
theorem c3_witness :
    (adicionar_venda dsEmpty ([] : Registro)).1 = dsEmpty
    ∧ (adicionar_venda dsEmpty rowBadQty).1 = dsEmpty
    ∧ (adicionar_venda dsEmpty rowInfQty).1 = dsEmpty
    ∧ (deletar_venda dsEmpty "1").1 = dsEmpty
    ∧ atualizar_venda sA "2" badPatch = (sA, false) :=
  ⟨c3_fail_all_or_nothing.1 dsEmpty ([] : Registro) rfl,
   c3_fail_all_or_nothing.1 dsEmpty rowBadQty rfl,
   c3_fail_all_or_nothing.2.1 dsEmpty rowInfQty (by decide),
   c3_fail_all_or_nothing.2.2.1 dsEmpty "1" rfl,
   c3_fail_all_or_nothing.2.2.2 sA "2" badPatch (by decide)⟩

/-- C4 counterexample: with two records sharing invoice `1`, a successful
delete removes only the first one, so the follow-up lookup still finds a
record and a second delete succeeds instead of failing. -/
theorem c4_counterexample :
    (deletar_venda sTwo "1").2 = true
    ∧ (buscar_venda_por_invoice (deletar_venda sTwo "1").1 "1").isSome = true
    ∧ (deletar_venda (deletar_venda sTwo "1").1 "1").2 = true := by
  decide

/-- C4 amended: a successful `deleteRecord` always shrinks the canonical
sequence by exactly one (removing the first match); and when the deleted
record was the only one with that invoice id, the follow-up lookup returns
nothing and a second delete fails with the not-found result. -/
theorem c4_delete_first_match (s : DataStructure) (inv : String)
    (hsucc : (deletar_venda s inv).2 = true) :
    (deletar_venda s inv).1.vendas.length + 1 = s.vendas.length
    ∧ ((s.vendas.filter (fun v => v.invoice_no == inv)).length ≤ 1 →
        buscar_venda_por_invoice (deletar_venda s inv).1 inv = none
        ∧ (deletar_venda (deletar_venda s inv).1 inv).2 = false) := by
  have h2 : (deletarLoop inv s.vendas).2 = true := hsucc
  constructor
  · exact deletarLoop_found_length inv s.vendas h2
  · intro hle
    have hfil := deletarLoop_found_filter inv s.vendas h2 hle
    have hall : ∀ v ∈ (deletarLoop inv s.vendas).1,
        (v.invoice_no == inv) = false := by
      intro v hv
      simpa using List.filter_eq_nil_iff.mp hfil v hv
    constructor
    · exact List.find?_eq_none.mpr (fun v hv => by simp [hall v hv])
    · show (deletarLoop inv (deletarLoop inv s.vendas).1).2 = false
      rw [deletarLoop_all_missing inv _ hall]

/-- C4 witness: deleting the only record with invoice `1` shrinks the
store to zero records, the lookup finds nothing, and the second delete
fails. -/
theorem c4_witness :
    (deletar_venda sOne "1").1.vendas.length + 1 = sOne.vendas.length
    ∧ (buscar_venda_por_invoice (deletar_venda sOne "1").1 "1" = none
       ∧ (deletar_venda (deletar_venda sOne "1").1 "1").2 = false) :=
  ⟨(c4_delete_first_match sOne "1" rfl).1,
   (c4_delete_first_match sOne "1" rfl).2 (by decide)⟩

/-! Claim C10: update with duplicate invoice ids. -/

/-- One non-matching step of the update loop passes the head through. -/
theorem atualizarLoop_miss_cons (novos : Registro) (inv : String) (u : Venda)
    (l : List Venda) (hu : (u.invoice_no == inv) = false) :
    atualizarLoop novos inv (u :: l)
      = (u :: (atualizarLoop novos inv l).1, (atualizarLoop novos inv l).2) := by
  simp only [atualizarLoop, hu, Bool.false_eq_true, if_false]

/-- The update loop on a list that starts with non-matching records
followed by a first match: only that first match is rewritten (patched,
and recomputed when the multiplication succeeds), everything before and
after it — including later records with the same invoice id — is returned
verbatim, and the reported boolean is exactly the success of the total
recomputation. -/
theorem atualizarLoop_first_match (novos : Registro) (inv : String) :
    ∀ (pre : List Venda) (v : Venda) (post : List Venda),
      (∀ u ∈ pre, ¬ u.invoice_no = inv) → v.invoice_no = inv →
      atualizarLoop novos inv (pre ++ v :: post)
        = (match pyMul (applyPatch v novos).quantity (applyPatch v novos).unit_price with
           | some t => (pre ++ ({ applyPatch v novos with total := t } : Venda) :: post, true)
           | none => (pre ++ applyPatch v novos :: post, false)) := by
  intro pre
  induction pre with
  | nil =>
    intro v post _ hv
    have hveq : (v.invoice_no == inv) = true := by simpa using hv
    simp only [List.nil_append, atualizarLoop, hveq, if_true]
  | cons u pre ih =>
    intro v post hpre hv
    have hu : (u.invoice_no == inv) = false := by
      simpa using hpre u (by simp)
    rw [List.cons_append, atualizarLoop_miss_cons novos inv u _ hu,
      ih v post (fun w hw => hpre w (by simp [hw])) hv]
    cases pyMul (applyPatch v novos).quantity (applyPatch v novos).unit_price <;> simp

/-- C10 counterexample: with two records sharing invoice `1`, an update
whose patch sets `quantity` to a non-numeric string returns failure, not
success — refuting the claim that the patch application always ends in a
success result. -/
theorem c10_counterexample :
    sTwo.vendas.map Venda.invoice_no = ["1", "1"]
    ∧ (atualizar_venda sTwo "1" badPatch).2 = false := by
  decide

/-- C10 amended: `updateRecord` rewrites only the first record matching
the invoice id, leaving every earlier non-matching record and every later
record (in particular later records with the same invoice id) completely
unchanged; it returns success exactly when the total recomputation
succeeds, and failure (with the patch fields nevertheless applied and the
old total kept) when it raises a type error. -/
theorem c10_update_first_match (s : DataStructure) (inv : String)
    (novos : Registro) (pre : List Venda) (v : Venda) (post : List Venda)
    (hsplit : s.vendas = pre ++ v :: post)
    (hpre : ∀ u ∈ pre, ¬ u.invoice_no = inv)
    (hv : v.invoice_no = inv) :
    (∀ t, pyMul (applyPatch v novos).quantity (applyPatch v novos).unit_price = some t →
      atualizar_venda s inv novos
        = ({ s with vendas := pre ++ ({ applyPatch v novos with total := t } : Venda) :: post }, true))
    ∧ (pyMul (applyPatch v novos).quantity (applyPatch v novos).unit_price = none →
      atualizar_venda s inv novos
        = ({ s with vendas := pre ++ applyPatch v novos :: post }, false)) := by
  have hbase := atualizarLoop_first_match novos inv pre v post hpre hv
  constructor
  · intro t ht
    rw [ht] at hbase
    unfold atualizar_venda
    rw [hsplit, hbase]
  · intro ht
    rw [ht] at hbase
    unfold atualizar_venda
    rw [hsplit, hbase]

/-- C10 witness: on the two-record store with duplicate invoice `1`, a
numeric patch rewrites only the first record and succeeds; the second
record survives verbatim. -/
theorem c10_witness :
    atualizar_venda sTwo "1" patch7
      = ({ sTwo with vendas :=
            [] ++ ({ applyPatch vLit1 patch7 with total := tPatch7 } : Venda) :: [vLit2] }, true) :=
  (c10_update_first_match sTwo "1" patch7 [] vLit1 [vLit2] rfl
    (by simp) rfl).1 tPatch7 rfl

/-! Claim C1: the derived-total invariant across operation sequences. -/

/-- The patch only rewrites `quantity` through its own binding. -/
theorem applyPatch_quantity (v : Venda) (novos : Registro) :
    (applyPatch v novos).quantity = (alGet novos "quantity").getD v.quantity := by
  unfold applyPatch
  cases alGet novos "quantity" <;> cases alGet novos "unit_price" <;>
    cases alGet novos "description" <;> rfl

/-- The patch only rewrites `unit_price` through its own binding. -/
theorem applyPatch_unit_price (v : Venda) (novos : Registro) :
    (applyPatch v novos).unit_price = (alGet novos "unit_price").getD v.unit_price := by
  unfold applyPatch
  cases alGet novos "quantity" <;> cases alGet novos "unit_price" <;>
    cases alGet novos "description" <;> rfl

/-- Multiplying two in-range Python numbers never raises. -/
theorem pyMul_numFits {a b : PyVal} (ha : numFitsB a = true)
    (hb : numFitsB b = true) : ∃ c, pyMul a b = some c := by
  cases a <;> cases b <;> simp_all [numFitsB, pyMul]

/-- The customer-aggregate helper does not touch the record list. -/
theorem atualizar_cliente_vendas (s : DataStructure) (v : Venda) (q : ℤ)
    (t : PFloat) : (atualizar_cliente s v q t).vendas = s.vendas := by
  unfold atualizar_cliente
  split <;> rfl

/-- The country helper does not touch the record list. -/
theorem atualizar_pais_vendas (s : DataStructure) (v : Venda) :
    (atualizar_pais s v).vendas = s.vendas := by
  unfold atualizar_pais
  split <;> rfl

/-- Ingestion preserves the derived-total invariant: the appended record
is built on the success path, where the coerced quantity passed the
int-to-float range check, and its `total` is the product by
construction. -/
theorem adicionar_venda_vendasOk (s : DataStructure) (r : Registro)
    (h : vendasOk s) : vendasOk (adicionar_venda s r).1 := by
  unfold adicionar_venda
  by_cases hc : (!(pyTruthy (rget r "InvoiceNo" .vNone))
      || !(pyTruthy (rget r "StockCode" .vNone))) = true
  · simpa [hc] using h
  · rw [if_neg (by simpa using hc)]
    cases hq : coerceQty r with
    | error e => simpa using h
    | ok q =>
      cases hp : coercePrice r with
      | error e => simpa using h
      | ok pf =>
        dsimp only
        by_cases hfit : intFits q = true
        · rw [if_pos hfit]
          intro v hv
          simp only [atualizar_pais_vendas, atualizar_cliente_vendas] at hv
          rcases List.mem_append.mp hv with hv | hv
          · exact h v hv
          · have hv2 := List.mem_singleton.mp hv
            subst hv2
            simp [isTotalOk, numFitsB, pyMul, hfit]
        · rw [if_neg hfit]
          simpa using h

/-- The update loop preserves the derived-total invariant whenever the
patch binds only in-range numbers to `quantity` and `unit_price`. -/
theorem atualizarLoop_vendasOk (novos : Registro) (inv : String)
    (hg : goodPatchB novos = true) :
    ∀ l : List Venda, (∀ v ∈ l, isTotalOk v = true) →
      ∀ v ∈ (atualizarLoop novos inv l).1, isTotalOk v = true := by
  intro l
  induction l with
  | nil => intro _ v hv; simp [atualizarLoop] at hv
  | cons u rest ih =>
    intro hall v hv
    have hgq : ∀ x, alGet novos "quantity" = some x → numFitsB x = true := by
      intro x hx
      unfold goodPatchB at hg
      rw [hx] at hg
      simp only [Bool.and_eq_true] at hg
      exact hg.1
    have hgp : ∀ x, alGet novos "unit_price" = some x → numFitsB x = true := by
      intro x hx
      unfold goodPatchB at hg
      rw [hx] at hg
      simp only [Bool.and_eq_true] at hg
      exact hg.2
    have hok := hall u (by simp)
    have hoknum : numFitsB u.quantity = true ∧ numFitsB u.unit_price = true := by
      have hok2 := hok
      simp only [isTotalOk, Bool.and_eq_true] at hok2
      exact ⟨hok2.1.1, hok2.1.2⟩
    cases hu : u.invoice_no == inv with
    | true =>
      have hq : numFitsB (applyPatch u novos).quantity = true := by
        rw [applyPatch_quantity]
        cases hqa : alGet novos "quantity" with
        | none => simpa using hoknum.1
        | some x => simpa using hgq x hqa
      have hp : numFitsB (applyPatch u novos).unit_price = true := by
        rw [applyPatch_unit_price]
        cases hpa : alGet novos "unit_price" with
        | none => simpa using hoknum.2
        | some x => simpa using hgp x hpa
      obtain ⟨c, hc⟩ := pyMul_numFits hq hp
      simp only [atualizarLoop, hu, if_true, hc] at hv
      rcases List.mem_cons.mp hv with hv' | hv'
      · subst hv'
        simp [isTotalOk, hq, hp, hc]
      · exact hall v (List.mem_cons_of_mem u hv')
    | false =>
      rw [atualizarLoop_miss_cons novos inv u rest hu] at hv
      rcases List.mem_cons.mp hv with hv' | hv'
      · subst hv'
        exact hok
      · exact ih (fun w hw => hall w (List.mem_cons_of_mem u hw)) v hv'

/-- Running a sequence of benign operations preserves the invariant. -/
theorem runOps_vendasOk :
    ∀ (ops : List Op) (s : DataStructure), vendasOk s →
      (∀ op ∈ ops, goodOpB op = true) → vendasOk (runOps s ops) := by
  intro ops
  induction ops with
  | nil => intro s h _; exact h
  | cons op rest ih =>
    intro s h hg
    have hstep : vendasOk (applyOp s op) := by
      cases op with
      | add r => exact adicionar_venda_vendasOk s r h
      | update inv novos =>
        intro v hv
        exact atualizarLoop_vendasOk novos inv
          (hg (.update inv novos) (by simp)) s.vendas h v hv
      | delete inv =>
        intro v hv
        exact h v (deletarLoop_subset inv s.vendas v hv)
    exact ih (applyOp s op) hstep (fun o ho => hg o (List.mem_cons_of_mem op ho))

/-- Python equality is reflexive on values other than `nan`. -/
theorem pyEqB_self (x : PyVal) (hn : notNanB x = true) : pyEqB x x = true := by
  cases x with
  | vInt n => simp [pyEqB]
  | vFloat f =>
    cases f with
    | finite q => simp [pyEqB, pfEqB]
    | inf s => simp [pyEqB, pfEqB]
    | nan => simp [notNanB] at hn
  | vStr s => simp [pyEqB]
  | vNone => simp [pyEqB]

/-- From the structural invariant to the Python-equality reading, for
records whose total is not `nan`. -/
theorem totalEqPy_of_isTotalOk (v : Venda) (h : isTotalOk v = true)
    (hn : notNanB v.total = true) : totalEqPy v = true := by
  simp only [isTotalOk, Bool.and_eq_true, beq_iff_eq] at h
  unfold totalEqPy
  rw [h.2]
  exact pyEqB_self v.total hn

/-- C1 counterexample, refuting the claimed invariant as stated (live
records always satisfy `total == quantity * unitPrice`) in two ways.
First, with no update involved: a row with quantity `0` and `UnitPrice`
the string `inf` is accepted by ingestion and stores
`total = 0 * inf = nan`, and `nan` compares unequal to the recomputed
product (`nan != nan`).  Second, an `updateRecord` patch binding
`quantity` to the string `x` fails midway and leaves a record whose
stale total no longer matches (the recompute now raises). -/
theorem c1_counterexample :
    ((adicionar_venda dsEmpty rowInfPrice).2 = PyOutcome.ok
      ∧ ¬ ∀ v ∈ (runOps dsEmpty [Op.add rowInfPrice]).vendas, totalEqPy v = true)
    ∧ ¬ ∀ v ∈ (runOps dsEmpty opsBad).vendas, totalEqPy v = true := by
  refine ⟨⟨by decide, by decide⟩, by decide⟩

/-- C1 amended: starting from the freshly constructed store, after any
sequence of `addRecord`, `updateRecord` and `deleteRecord` operations in
which every update patch binds only in-range numbers to `quantity` and
`unit_price` (the program's own UI coerces before patching), every live
record stores as `total` exactly the Python value obtained by recomputing
`quantity * unitPrice` with the ingestion semantics; read as Python `==`,
`total == quantity * unitPrice` then holds whenever that total is not
`nan`.  A `nan` total (quantity `0` with an infinite unit price) breaks
the `==` reading even with no update involved, and a non-numeric patch
value breaks the invariant outright (see the counterexample). -/
theorem c1_total_invariant (ops : List Op)
    (hg : ∀ op ∈ ops, goodOpB op = true) :
    ∀ v ∈ (runOps dsEmpty ops).vendas,
      isTotalOk v = true ∧ (notNanB v.total = true → totalEqPy v = true) := by
  intro v hv
  have h1 := runOps_vendasOk ops dsEmpty
    (fun v hv => absurd hv (by simp [dsEmpty])) hg v hv
  exact ⟨h1, fun hn => totalEqPy_of_isTotalOk v h1 hn⟩

/-- C1 witness: the invariant after a concrete benign sequence. -/
theorem c1_witness :
    (∀ op ∈ opsGood, goodOpB op = true)
    ∧ ∀ v ∈ (runOps dsEmpty opsGood).vendas,
        isTotalOk v = true ∧ (notNanB v.total = true → totalEqPy v = true) :=
  ⟨by decide, c1_total_invariant opsGood (by decide)⟩

/-! Claim C6: ranking of products by quantity. -/

/-- Inserting into the ranking is a permutation with the element on top. -/
theorem rankInsert_perm (x : String × Produto) :
    ∀ l, List.Perm (rankInsert x l) (x :: l) := by
  intro l
  induction l with
  | nil => simp [rankInsert]
  | cons y rest ih =>
    by_cases h : x.2.quantidade_total < y.2.quantidade_total
    · simp only [rankInsert, if_pos h]
      exact (ih.cons y).trans (List.Perm.swap x y rest)
    · simp only [rankInsert, if_neg h]
      exact List.Perm.refl _

/-- The ranking sort permutes its input. -/
theorem rankSort_perm : ∀ l : List (String × Produto), List.Perm (rankSort l) l := by
  intro l
  induction l with
  | nil => exact List.Perm.refl _
  | cons x xs ih => exact (rankInsert_perm x (rankSort xs)).trans (ih.cons x)

/-- Insertion keeps the list sorted non-increasingly on the key. -/
theorem rankInsert_sorted (x : String × Produto) :
    ∀ l, List.Sorted (fun a b => prodKey b ≤ prodKey a) l →
      List.Sorted (fun a b => prodKey b ≤ prodKey a) (rankInsert x l) := by
  intro l
  induction l with
  | nil => intro _; simp [rankInsert]
  | cons y rest ih =>
    intro hs
    rw [List.sorted_cons] at hs
    obtain ⟨hy, hrest⟩ := hs
    by_cases h : x.2.quantidade_total < y.2.quantidade_total
    · simp only [rankInsert, if_pos h]
      rw [List.sorted_cons]
      refine ⟨?_, ih hrest⟩
      intro z hz
      have hz2 : z ∈ x :: rest := (rankInsert_perm x rest).mem_iff.mp hz
      rcases List.mem_cons.mp hz2 with hz2 | hz2
      · subst hz2; exact le_of_lt h
      · exact hy z hz2
    · simp only [rankInsert, if_neg h]
      rw [List.sorted_cons, List.sorted_cons]
      push_neg at h
      refine ⟨?_, hy, hrest⟩
      intro z hz
      rcases List.mem_cons.mp hz with hz | hz
      · subst hz; exact h
      · exact le_trans (hy z hz) h

/-- The ranking sort produces a non-increasing list. -/
theorem rankSort_sorted :
    ∀ l, List.Sorted (fun a b => prodKey b ≤ prodKey a) (rankSort l) := by
  intro l
  induction l with
  | nil => simp [rankSort]
  | cons x xs ih => exact rankInsert_sorted x (rankSort xs) ih

/-- Stability of insertion, phrased per key value: inserting into a sorted
list does not disturb the subsequence of any fixed key. -/
theorem rankInsert_filter (q : ℤ) (x : String × Produto) :
    ∀ l, List.Sorted (fun a b => prodKey b ≤ prodKey a) l →
      (rankInsert x l).filter (fun p => prodKey p == q)
        = ((x :: l).filter (fun p => prodKey p == q)) := by
  intro l
  induction l with
  | nil => intro _; rfl
  | cons y rest ih =>
    intro hs
    rw [List.sorted_cons] at hs
    obtain ⟨hy, hrest⟩ := hs
    by_cases h : x.2.quantidade_total < y.2.quantidade_total
    · simp only [rankInsert, if_pos h, List.filter_cons]
      rw [show (rankInsert x rest).filter (fun p => prodKey p == q)
            = ((x :: rest).filter (fun p => prodKey p == q)) from ih hrest]
      by_cases hxq : (prodKey x == q) = true
      · have hx : x.2.quantidade_total = q := by simpa [prodKey] using hxq
        have hyq : (prodKey y == q) = false := by
          simp only [prodKey, beq_eq_false_iff_ne, ne_eq]
          omega
        simp [List.filter_cons, hxq, hyq]
      · have hxq' : (prodKey x == q) = false := by
          simpa using hxq
        simp [List.filter_cons, hxq']
    · simp only [rankInsert, if_neg h]

/-- Stability of the ranking sort: for every key value, the records with
that key appear in the sorted output exactly as they appear in the input
(insertion order of first appearance). -/
theorem rankSort_filter (q : ℤ) :
    ∀ l, (rankSort l).filter (fun p => prodKey p == q)
      = l.filter (fun p => prodKey p == q) := by
  intro l
  induction l with
  | nil => rfl
  | cons x xs ih =>
    show (rankInsert x (rankSort xs)).filter (fun p => prodKey p == q) = _
    rw [rankInsert_filter q x (rankSort xs) (rankSort_sorted xs),
      List.filter_cons, List.filter_cons, ih]

/-- C6: `topProductsByQuantity(n)` returns at most `n` pairs, sorted
non-increasingly by `quantidade_total`; when `n` is at least the number of
distinct products it returns them all (a permutation of the aggregate
table); and the sort is stable, so ties keep the insertion order of first
appearance of each product code. -/
theorem c6_ranking_top_produtos (s : DataStructure) (n : ℕ) :
    (ranking_produtos_mais_vendidos s n).length ≤ n
    ∧ List.Sorted (fun a b => prodKey b ≤ prodKey a)
        (ranking_produtos_mais_vendidos s n)
    ∧ (s.produtos.length ≤ n →
        List.Perm (ranking_produtos_mais_vendidos s n) s.produtos)
    ∧ ∀ q : ℤ, (rankSort s.produtos).filter (fun p => prodKey p == q)
        = s.produtos.filter (fun p => prodKey p == q) := by
  refine ⟨?_, ?_, ?_, fun q => rankSort_filter q s.produtos⟩
  · simp only [ranking_produtos_mais_vendidos, List.length_take]
    exact min_le_left _ _
  · exact List.Pairwise.sublist (List.take_sublist n _)
      (rankSort_sorted s.produtos)
  · intro hle
    have hlen : (rankSort s.produtos).length = s.produtos.length :=
      (rankSort_perm s.produtos).length_eq
    unfold ranking_produtos_mais_vendidos
    rw [List.take_of_length_le (by rw [hlen]; exact hle)]
    exact rankSort_perm s.produtos

/-- C6 witness: on the two-product store, a limit of `10` returns every
aggregate. -/
theorem c6_witness :
    (ranking_produtos_mais_vendidos sAA 10).length ≤ 10
    ∧ List.Perm (ranking_produtos_mais_vendidos sAA 10) sAA.produtos :=
  ⟨(c6_ranking_top_produtos sAA 10).1,
   (c6_ranking_top_produtos sAA 10).2.2.1 (by decide)⟩
